import Mathlib

/-!
Verification of the Hatanaka RINEX observation compressor
(`src/rinex/src/hatanaka/compressor.rs`).

The compressor and all of its helper routines are shallowly embedded as
executable Lean definitions.  Strings are Lean `String`s manipulated through
character-list helpers; Rust `HashMap`s are association lists (the source only
ever uses point lookups and point updates, never iteration, so association
lists are observationally equivalent); Rust panics (`unwrap`, `expect`,
out-of-range slicing, `split_at` out of bounds) are modelled by an explicit
`panic` outcome of the result type.

Components of the repository that the compressor uses but whose sources are
not part of the provided extract (the numeric differentiator `NumDiff`, the
text differentiator `TextDiff`, `Sv`, `Header`, the `is_comment` macro and the
floating-point observable parser) are modelled from the specification; each
such definition carries a doc comment starting with `Modelled from the spec`.
-/

namespace Rinex

/-! ## Character and string helpers (Rust `str` semantics) -/

/-- Whitespace as recognised by Rust's `str::trim` (restricted to the ASCII
whitespace characters that can occur in RINEX data). -/
def isWs (ch : Char) : Bool :=
  ch = ' ' || ch = '\t' || ch = '\n' || ch = '\r'

def trimStartL (l : List Char) : List Char := l.dropWhile isWs

def trimEndL (l : List Char) : List Char := (l.reverse.dropWhile isWs).reverse

/-- Rust `str::trim`. -/
def rustTrim (s : String) : String := ⟨trimEndL (trimStartL s.data)⟩

/-- Rust `str::trim_end`. -/
def rustTrimEnd (s : String) : String := ⟨trimEndL s.data⟩

/-- Character length of a string (all RINEX data is ASCII, so byte length
and character length agree). -/
def strLen (s : String) : Nat := s.data.length

/-- Rust `str::split_at`. -/
def strSplitAt (n : Nat) (s : String) : String × String :=
  (⟨s.data.take n⟩, ⟨s.data.drop n⟩)

/-- The slice `s[a..b]` (caller is responsible for the bounds check that Rust
performs; see the `panic` cases at call sites). -/
def strSlice (s : String) (a b : Nat) : String := ⟨(s.data.take b).drop a⟩

/-- A run of `n` spaces. -/
def spaces (n : Nat) : String := ⟨List.replicate n ' '⟩

/-- Substring search, as in Rust `str::contains`. -/
def containsSubL : List Char → List Char → Bool
  | l, p => if p.isPrefixOf l then true else
      match l with
      | [] => false
      | _ :: t => containsSubL t p

def containsSub (s pat : String) : Bool := containsSubL s.data pat.data

/-- One step of splitting a character list at newline characters. -/
def splitNlAux : List Char → List Char → List (List Char)
  | [], acc => [acc.reverse]
  | '\n' :: t, acc => acc.reverse :: splitNlAux t []
  | ch :: t, acc => splitNlAux t (ch :: acc)

/-- Strip one trailing carriage return (Rust `str::lines` treats `\r\n` as a
line terminator). -/
def stripCr (l : List Char) : List Char :=
  if l.getLast? = some '\r' then l.dropLast else l

/-- Rust `str::lines`: split at `\n`, strip a trailing `\r` from each line,
and do not produce a final empty line for a trailing newline. -/
def rustLines (s : String) : List String :=
  let parts := splitNlAux s.data []
  let parts := match parts.getLast? with
    | some [] => parts.dropLast
    | _ => parts
  parts.map (fun l => ⟨stripCr l⟩)

/-- `num_integer::div_ceil` on `usize`. -/
def divCeil (a b : Nat) : Nat := (a + b - 1) / b

def digitVal (c : Char) : Nat := c.toNat - '0'.toNat

def natFromDigits (l : List Char) : Nat :=
  l.foldl (fun a c => a * 10 + digitVal c) 0

/-- Decimal digit strings accepted by Rust's unsigned integer parsers:
nonempty and all digits. -/
def parseNatDigits (l : List Char) : Option Nat :=
  if l = [] then none
  else if l.all Char.isDigit then some (natFromDigits l) else none

/-- Rust `u16::from_str_radix(s, 10)`: an optional leading `+`, then decimal
digits, value below `2^16`. -/
def parseU16 (s : String) : Option Nat :=
  let l := match s.data with
    | '+' :: t => t
    | l => l
  match parseNatDigits l with
  | some v => if v < 65536 then some v else none
  | none => none

/-- Digits of a natural number, most significant first (fuel-driven so that
the kernel evaluates it directly). -/
def natToRevDigits : Nat → Nat → List Char
  | 0, _ => []
  | fuel + 1, n =>
      if n < 10 then [Char.ofNat (n + 48)]
      else Char.ofNat (n % 10 + 48) :: natToRevDigits fuel (n / 10)

def natToStr (n : Nat) : String := ⟨(natToRevDigits (n + 1) n).reverse⟩

/-- Rust `i64` `Display` formatting. -/
def intToStr : Int → String
  | .ofNat n => natToStr n
  | .negSucc n => "-" ++ natToStr (n + 1)

/-! ## Floating-point observable parsing

Modelled from the spec, §4.4: "Trim; parse as floating-point. … On success,
scale to integer: `x = round(value · 1000)`."  The source uses
`f64::from_str` followed by `f64::round(v * 1000.0) as i64`; we model the
composition directly as an exact decimal parser producing the scaled
integer, with round-half-away-from-zero on the digits beyond the third
fractional digit.  Exponent and non-finite forms are outside the data
handled by the claims and are rejected. -/

/-- Split a character list at the single decimal point, rejecting a second
decimal point. -/
def splitDotAux : List Char → List Char → Option (List Char × List Char)
  | [], acc => some (acc.reverse, [])
  | '.' :: t, acc => if t.contains '.' then none else some (acc.reverse, t)
  | c :: t, acc => splitDotAux t (c :: acc)

/-- Modelled from the spec: parse of a trimmed 14-character observable field
as a decimal number, already scaled by 1000 and rounded (the missing
`f64::from_str` / rounding code of the repository). -/
def parseObsScaled (s : String) : Option Int :=
  let (sgn, l) : Int × List Char := match s.data with
    | '-' :: t => (-1, t)
    | '+' :: t => (1, t)
    | l => (1, l)
  match splitDotAux l [] with
  | none => none
  | some (ip, fp) =>
      if ip.all Char.isDigit ∧ fp.all Char.isDigit ∧ (ip ≠ [] ∨ fp ≠ []) then
        let f3 := natFromDigits ((fp ++ ['0', '0', '0']).take 3)
        let carry : Nat := match fp.drop 3 with
          | [] => 0
          | d :: _ => if '5' ≤ d then 1 else 0
        some (sgn * (natFromDigits ip * 1000 + f3 + carry))
      else none

/-! ## The differentiator kernels -/

/-- The error enumeration of the `hatanaka` module, as documented in spec §7. -/
inductive Error where
  | NotObsRinexData
  | MalformedEpochDescriptor
  | VehiculeIdentificationError
  | MalformedEpochBody
  | KernelInit
deriving DecidableEq, Repr

/-- Modelled from the spec, §4.2: the text differentiator `TextDiff`
(its source is not part of the provided extract).  Its state is the
previously recorded string. -/
structure TextDiff where
  buffer : String
deriving DecidableEq, Repr

def TextDiff.new : TextDiff := ⟨""⟩

def TextDiff.init (_td : TextDiff) (s : String) : TextDiff := ⟨s⟩

/-- Character-wise diff: a position that agrees with the recorded state is a
space, a differing or excess position is emitted verbatim. -/
def diffChars : List Char → List Char → List Char
  | _, [] => []
  | [], b => b
  | a :: as_, b :: bs => (if a = b then ' ' else b) :: diffChars as_ bs

def TextDiff.compress (td : TextDiff) (s : String) : String × TextDiff :=
  (⟨diffChars td.buffer.data s.data⟩, ⟨s⟩)

/-- Modelled from the spec, §4.1: the numeric differentiator `NumDiff` (its
source is not part of the provided extract).  It keeps the ring of the last
`order + 1` samples and emits the finite difference of that window. -/
structure NumDiff where
  order : Nat
  history : List Int
deriving DecidableEq, Repr

/-- Modelled from the spec: the implementation-fixed maximal compression
order (spec §4.1: "MAX is implementation-fixed, typically 5"). -/
def NumDiff.MAX_COMPRESSION_ORDER : Nat := 5

/-- `NumDiff::new`: fails with `KernelInit` for an order outside `1..=MAX`. -/
def NumDiff.new (order : Nat) : Except Error NumDiff :=
  if 1 ≤ order ∧ order ≤ NumDiff.MAX_COMPRESSION_ORDER then .ok ⟨order, []⟩
  else .error .KernelInit

/-- `NumDiff::init`: reset the history to the seed, re-arming at the given
order; fails for an order outside `1..=MAX`. -/
def NumDiff.init (order : Nat) (seed : Int) (_nd : NumDiff) : Except Error NumDiff :=
  if 1 ≤ order ∧ order ≤ NumDiff.MAX_COMPRESSION_ORDER then .ok ⟨order, [seed]⟩
  else .error .KernelInit

def diffAdj : List Int → List Int
  | a :: b :: t => (a - b) :: diffAdj (b :: t)
  | _ => []

def finDiffAux : Nat → List Int → Int
  | _, [] => 0
  | _, [a] => a
  | 0, _ => 0
  | fuel + 1, l => finDiffAux fuel (diffAdj l)

/-- `NumDiff::compress`: shift in the new sample and return the finite
difference of the retained window. -/
def NumDiff.compress (nd : NumDiff) (x : Int) : Int × NumDiff :=
  let hist := (x :: nd.history).take (nd.order + 1)
  (finDiffAux hist.length hist, ⟨nd.order, hist⟩)

/-! ## Satellites, headers, comments -/

/-- Modelled from the spec, §3: a satellite identifier is a pair of a
constellation letter and a PRN number (the `Sv` type of the repository is not
part of the provided extract).  A constellation is identified by its
one-letter code, which is also what `to_1_letter_code` returns. -/
structure Sv where
  constellation : Char
  prn : Nat
deriving DecidableEq, Repr

/-- Modelled from the spec, §3: the constellation letters. -/
def constellLetters : List Char := ['G', 'R', 'E', 'C', 'J', 'I', 'S']

/-- Modelled from the spec, §3 and §9: `Sv::from_str` accepts a
constellation letter followed by a PRN in `1..=99`, tolerating interior
padding, e.g. `"G01"` or `"G 1"`. -/
def svFromStr (s : String) : Option Sv :=
  match (rustTrim s).data with
  | [] => none
  | c0 :: rest =>
      if constellLetters.contains c0 then
        match parseNatDigits (trimStartL rest) with
        | some n => if 1 ≤ n ∧ n ≤ 99 then some ⟨c0, n⟩ else none
        | none => none
      else none

/-- Modelled from the spec, §6: the part of the RINEX file-kind enumeration
relevant here (`Type` in the repository, not part of the provided extract). -/
inductive RinexType where
  | ObservationData
  | NavigationData
  | MeteoData
deriving DecidableEq, Repr

/-- Modelled from the spec, §6: the observation-specific header section; only
the observable-codes table is consumed (`obs_codes[&constellation].len()`). -/
structure ObsHeader where
  codes : List (Char × List String)
deriving DecidableEq, Repr

/-- Modelled from the spec, §6: the slice of the parsed header consumed by
the compressor: file kind, optional default constellation, optional
observation section. -/
structure Header where
  rinex_type : RinexType
  constellation : Option Char
  obs : Option ObsHeader
deriving DecidableEq, Repr

/-- Modelled from the spec, §4.3: the `is_comment` macro (not part of the
provided extract): the fixed-column label band beyond character 60 contains
the marker `COMMENT`. -/
def is_comment (line : String) : Bool :=
  decide (60 < strLen line) && containsSub ⟨line.data.drop 60⟩ "COMMENT"

/-! ## Association-list maps (the `HashMap`s of the source) -/

def alistGet {α β : Type} [DecidableEq α] : List (α × β) → α → Option β
  | [], _ => none
  | (k, v) :: t, a => if k = a then some v else alistGet t a

def alistSet {α β : Type} [DecidableEq α] : List (α × β) → α → β → List (α × β)
  | [], a, b => [(a, b)]
  | (k, v) :: t, a, b => if k = a then (a, b) :: t else (k, v) :: alistSet t a b

/-- Remove the first occurrence of a value, as the source's scan-and-`remove`
loop over the pending-reinit vector does. -/
def removeFirst : List Nat → Nat → List Nat
  | [], _ => []
  | x :: t, v => if x = v then t else x :: removeFirst t v

/-! ## The compressor state -/

/-- The two states of the finite state machine. -/
inductive State where
  | EpochDescriptor
  | Body
deriving DecidableEq, Repr

/-- The kernel triple `(NumDiff, TextDiff, TextDiff)` stored per
(satellite, observable index): numeric data, LLI flag, SSI flag. -/
structure Kernels where
  nd : NumDiff
  lli : TextDiff
  ssi : TextDiff
deriving DecidableEq, Repr

/-- The `Compressor` structure.  `epoch_ptr` is a `u8` in the source; its
value never approaches 256 in any behaviour considered here, so it is a
`Nat`, and the single place the source casts a other quantity to `u8`
(`div_ceil(nb_vehicules, 12) as u8`) keeps its `% 256`. -/
structure Compressor where
  state : State
  first_epoch : Bool
  epoch_ptr : Nat
  epoch_descriptor : String
  flags_descriptor : String
  nb_vehicules : Nat
  vehicule_ptr : Nat
  obs_ptr : Nat
  epoch_diff : TextDiff
  clock_diff : NumDiff
  sv_diff : List (Sv × List (Nat × Kernels))
  forced_init : List (Sv × List Nat)
deriving DecidableEq, Repr

/-- `Compressor::new`. -/
def Compressor.new : Compressor :=
  { state := .EpochDescriptor
    first_epoch := true
    epoch_ptr := 0
    epoch_descriptor := ""
    flags_descriptor := ""
    nb_vehicules := 0
    vehicule_ptr := 0
    obs_ptr := 0
    epoch_diff := TextDiff.new
    clock_diff := ⟨NumDiff.MAX_COMPRESSION_ORDER, []⟩
    sv_diff := []
    forced_init := [] }

/-- Results of running (part of) `compress`: a produced output fragment with
the updated state, a returned typed error (the `&mut self` mutations made
before the error persist, the accumulated output string is dropped), or a
panic. -/
inductive CRes where
  | ok (output : String) (c : Compressor)
  | error (e : Error) (c : Compressor)
  | panic
deriving DecidableEq, Repr

def CRes.output : CRes → Option String
  | .ok s _ => some s
  | _ => none

def CRes.errOf : CRes → Option Error
  | .error e _ => some e
  | _ => none

def CRes.stateOf : CRes → Option Compressor
  | .ok _ c => some c
  | _ => none

def CRes.isPanic : CRes → Bool
  | .panic => true
  | _ => false

/-- Whether a result is the typed error `NotObsRinexData`. -/
def CRes.notObsErr : CRes → Bool
  | .error .NotObsRinexData _ => true
  | _ => false

/-- Results of `current_vehicule`: `Ok(sv)`, a returned error, or a panic
(out-of-range slice of the stored descriptor, or the `expect` on a missing
default constellation). -/
inductive VehRes where
  | ok (sv : Sv)
  | err (e : Error)
  | panic
deriving DecidableEq, Repr

/-! ## The compressor routines (from `compressor.rs`) -/

/-- `format_epoch_descriptor` (source lines 62-70): prefix `&`, then every
line of the accumulated descriptor with `str::trim` applied, then one
newline. -/
def format_epoch_descriptor (content : String) : String :=
  "&" ++ String.join ((rustLines content).map (fun line => rustTrim line)) ++ "\n"

/-- `determine_nb_vehicules` (source lines 94-107): characters `[30..32]`
parsed as a `u16` after trimming; lines shorter than 33 characters are
malformed. -/
def determine_nb_vehicules (content : String) : Except Error Nat :=
  if strLen content < 33 then .error .MalformedEpochDescriptor
  else
    match parseU16 (rustTrim (strSlice content 30 32)) with
    | some u => .ok u
    | none => .error .MalformedEpochDescriptor

/-- `current_vehicule` (source lines 110-134): slice the stored (reshaped)
epoch descriptor at `[32 + 3*vehicule_ptr ..][..3]`, trim, prepend the
header's default constellation letter if the field is digit-leading.  The
slice panics when the descriptor is too short, and the `expect` panics when
the default constellation is absent. -/
def current_vehicule (h : Header) (c : Compressor) : VehRes :=
  let vmin := 32 + c.vehicule_ptr * 3
  let vmax := vmin + 3
  if strLen c.epoch_descriptor < vmax then .panic
  else
    let vehicule := rustTrim (strSlice c.epoch_descriptor vmin vmax)
    match vehicule.data with
    | [] => .err .VehiculeIdentificationError
    | c0 :: _ =>
        if c0.isDigit then
          match h.constellation with
          | none => .panic
          | some letter =>
              match svFromStr ⟨letter :: vehicule.data⟩ with
              | some sv => .ok sv
              | none => .err .VehiculeIdentificationError
        else
          match svFromStr vehicule with
          | some sv => .ok sv
          | none => .err .VehiculeIdentificationError

/-- `conclude_epoch` (source lines 155-162). -/
def conclude_epoch (c : Compressor) : Compressor :=
  { c with epoch_ptr := 0
           vehicule_ptr := 0
           epoch_descriptor := ""
           state := .EpochDescriptor }

/-- `conclude_vehicule` (source lines 137-152): append the right-trimmed
flag block and a newline to the output, clear the flag block, advance to the
next vehicule, concluding the epoch when all vehicules are done. -/
def conclude_vehicule (c : Compressor) (content : String) : String × Compressor :=
  let result := content ++ rustTrimEnd c.flags_descriptor ++ "\n"
  let c := { c with flags_descriptor := ""
                    obs_ptr := 0
                    vehicule_ptr := c.vehicule_ptr + 1 }
  if c.vehicule_ptr = c.nb_vehicules then (result, conclude_epoch c)
  else (result, c)

/-- Append one scheduled forced-reinit index for a satellite (the
`get_mut`/`push` alias `insert(vec![i])` pattern of the source). -/
def scheduleOne (fi : List (Sv × List Nat)) (sv : Sv) (i : Nat) : List (Sv × List Nat) :=
  alistSet fi sv ((alistGet fi sv).getD [] ++ [i])

/-- Schedule every index in `[a, b)` (the overflow-guard loop, source lines
311-317). -/
def scheduleRange (fi : List (Sv × List Nat)) (sv : Sv) (a b : Nat) : List (Sv × List Nat) :=
  (List.range' a (b - a)).foldl (fun acc i => scheduleOne acc sv i) fi

/-- The numeric part of one observable (source lines 354-378 and the
duplicated lines 424-446): if a forced reinit is pending at the current
index, emit a `3&`-seed, re-init the kernel at order 3 and remove one
occurrence of the pending index; otherwise emit the kernel's delta.
`none` models the panic of `init(3, _).unwrap()`. -/
def numToken (sv : Sv) (obs_ptr : Nat) (v : Int) (nd : NumDiff)
    (forced : List (Sv × List Nat)) :
    Option (String × NumDiff × List (Sv × List Nat)) :=
  match alistGet forced sv with
  | some indexes =>
      if indexes.contains obs_ptr then
        match NumDiff.init 3 v nd with
        | .error _ => none
        | .ok nd2 =>
            some ("3&" ++ intToStr v ++ " ", nd2,
              alistSet forced sv (removeFirst indexes obs_ptr))
      else
        let (comp, nd2) := NumDiff.compress nd v
        some (intToStr comp ++ " ", nd2, forced)
  | none =>
      let (comp, nd2) := NumDiff.compress nd v
      some (intToStr comp ++ " ", nd2, forced)

/-- One 14+2-character observable field (source lines 343-534).  Returns the
output fragment for this field; `obs_ptr` is advanced by the caller, exactly
as in the source. -/
def processField (sv : Sv) (obsdata flags : String) (c : Compressor) : CRes :=
  match parseObsScaled (rustTrim obsdata) with
  | some v =>
      if strLen (rustTrim flags) = 0 then
        -- both flags omitted (source lines 345-414)
        match alistGet c.sv_diff sv with
        | some sv_diffs =>
            match alistGet sv_diffs c.obs_ptr with
            | some diffs =>
                match numToken sv c.obs_ptr v diffs.nd c.forced_init with
                | none => .panic
                | some (tok, nd2, forced2) =>
                    .ok tok
                      { c with
                        sv_diff := alistSet c.sv_diff sv
                          (alistSet sv_diffs c.obs_ptr { diffs with nd := nd2 })
                        forced_init := forced2 }
            | none =>
                -- first time dealing with this observable (lines 379-395)
                match NumDiff.new NumDiff.MAX_COMPRESSION_ORDER with
                | .error e => .error e c
                | .ok nd0 =>
                    match NumDiff.init 3 v nd0 with
                    | .error _ => .panic
                    | .ok nd1 =>
                        let diffs : Kernels :=
                          { nd := nd1
                            lli := TextDiff.new.init " "
                            ssi := TextDiff.new.init " " }
                        .ok ("3&" ++ intToStr v ++ " ")
                          { c with
                            flags_descriptor := c.flags_descriptor ++ "  "
                            sv_diff := alistSet c.sv_diff sv
                              (alistSet sv_diffs c.obs_ptr diffs) }
        | none =>
            -- first time dealing with this vehicule (lines 396-414)
            match NumDiff.new NumDiff.MAX_COMPRESSION_ORDER with
            | .error e => .error e c
            | .ok nd0 =>
                match NumDiff.init 3 v nd0 with
                | .error _ => .panic
                | .ok nd1 =>
                    let diffs : Kernels :=
                      { nd := nd1
                        lli := TextDiff.new.init "&"
                        ssi := TextDiff.new.init "&" }
                    .ok ("3&" ++ intToStr v ++ " ")
                      { c with
                        flags_descriptor := c.flags_descriptor ++ "  "
                        sv_diff := alistSet c.sv_diff sv [(c.obs_ptr, diffs)] }
      else
        -- not all flags omitted (source lines 415-520)
        let (lli, ssi) := strSplitAt 1 flags
        match alistGet c.sv_diff sv with
        | some sv_diffs =>
            match alistGet sv_diffs c.obs_ptr with
            | some diffs =>
                match numToken sv c.obs_ptr v diffs.nd c.forced_init with
                | none => .panic
                | some (tok, nd2, forced2) =>
                    let (lliOut, td1) :=
                      if 0 < strLen lli then diffs.lli.compress lli
                      else (" ", diffs.lli)
                    let (ssiOut, td2) :=
                      if 0 < strLen ssi then diffs.ssi.compress ssi
                      else (" ", diffs.ssi)
                    .ok tok
                      { c with
                        sv_diff := alistSet c.sv_diff sv
                          (alistSet sv_diffs c.obs_ptr ⟨nd2, td1, td2⟩)
                        forced_init := forced2
                        flags_descriptor := c.flags_descriptor ++ lliOut ++ ssiOut }
            | none =>
                -- first time dealing with this observable (lines 462-492)
                match NumDiff.new NumDiff.MAX_COMPRESSION_ORDER with
                | .error e => .error e c
                | .ok nd0 =>
                    match NumDiff.init 3 v nd0 with
                    | .error _ => .panic
                    | .ok nd1 =>
                        let (td1, f1) :=
                          if 0 < strLen lli then (TextDiff.new.init lli, lli)
                          else (TextDiff.new.init "&", " ")
                        let (td2, f2) :=
                          if 0 < strLen ssi then (TextDiff.new.init ssi, ssi)
                          else (TextDiff.new.init "&", " ")
                        .ok ("3&" ++ intToStr v ++ " ")
                          { c with
                            flags_descriptor := c.flags_descriptor ++ f1 ++ f2
                            sv_diff := alistSet c.sv_diff sv
                              (alistSet sv_diffs c.obs_ptr ⟨nd1, td1, td2⟩) }
        | none =>
            -- first time dealing with this vehicule (lines 493-519)
            match NumDiff.new NumDiff.MAX_COMPRESSION_ORDER with
            | .error e => .error e c
            | .ok nd0 =>
                match NumDiff.init 3 v nd0 with
                | .error _ => .panic
                | .ok nd1 =>
                    let td1 := TextDiff.new.init lli
                    let (td2, f2) :=
                      if 0 < strLen ssi then (TextDiff.new.init ssi, ssi)
                      else (TextDiff.new.init "&", " ")
                    .ok ("3&" ++ intToStr v ++ " ")
                      { c with
                        flags_descriptor := c.flags_descriptor ++ lli ++ f2
                        sv_diff := alistSet c.sv_diff sv [(c.obs_ptr, ⟨nd1, td1, td2⟩)] }
  | none =>
      -- parse failure: observable omitted (source lines 521-534)
      .ok " "
        { c with flags_descriptor := c.flags_descriptor ++ "  "
                 forced_init := scheduleOne c.forced_init sv c.obs_ptr }

/-- The per-line loop over observable fields (source lines 336-542): split
the remaining text into fields of up to 16 characters.  Rust's
`data.split_at(14)` panics when a trailing field is shorter than 14
characters.  After each field `obs_ptr` is advanced and a value beyond the
constellation's count is `MalformedEpochBody`. -/
def fieldsLoop (sv : Sv) (sv_nb_obs : Nat) : Nat → String → Compressor → CRes
  | 0, _, c => .ok "" c
  | n + 1, observables, c =>
      let index := min 16 (strLen observables)
      let (data, rem) := strSplitAt index observables
      if strLen data < 14 then .panic
      else
        let (obsdata, flags) := strSplitAt 14 data
        match processField sv obsdata flags c with
        | .ok frag c2 =>
            let c3 := { c2 with obs_ptr := c2.obs_ptr + 1 }
            if sv_nb_obs < c3.obs_ptr then .error .MalformedEpochBody c3
            else
              match fieldsLoop sv sv_nb_obs n rem c3 with
              | .ok out c4 => .ok (frag ++ out) c4
              | r => r
        | r => r

/-- Field processing plus the satellite-completion check after the loop
(source lines 544-546). -/
def fieldsPhase (sv : Sv) (sv_nb_obs : Nat) (n : Nat) (line : String)
    (c : Compressor) (acc : String) : CRes :=
  match fieldsLoop sv sv_nb_obs n line c with
  | .ok out c2 =>
      if c2.obs_ptr = sv_nb_obs then
        let (r, c3) := conclude_vehicule c2 (acc ++ out)
        .ok r c3
      else .ok (acc ++ out) c2
  | .error e c2 => .error e c2
  | .panic => .panic

/-- A `Body` line (source lines 300-551), including the overflow guard for
silently omitted trailing observables and its FSM rewind. -/
def bodyLine (h : Header) (codes : List (Char × List String))
    (c : Compressor) (line : String) : CRes :=
  let nb_obs_line := divCeil (strLen line) 17
  match current_vehicule h c with
  | .panic => .panic
  | .err _ => .error .VehiculeIdentificationError c
  | .ok sv =>
      match alistGet codes sv.constellation with
      | none => .panic
      | some lst =>
          let sv_nb_obs := lst.length
          if sv_nb_obs < c.obs_ptr + nb_obs_line then
            let c2 := { c with forced_init := scheduleRange c.forced_init sv c.obs_ptr sv_nb_obs }
            let (frag2, c3) := conclude_vehicule c2 (spaces (sv_nb_obs - c.obs_ptr))
            if c3.state = .EpochDescriptor then
              match determine_nb_vehicules line with
              | .error e => .error e c3
              | .ok nb =>
                  .ok frag2
                    { c3 with nb_vehicules := nb
                              epoch_ptr := 1
                              epoch_descriptor := c3.epoch_descriptor ++ line ++ "\n" }
            else fieldsPhase sv sv_nb_obs nb_obs_line line c3 frag2
          else fieldsPhase sv sv_nb_obs nb_obs_line line c ""

/-- An `EpochDescriptor` line (source lines 245-298): accumulate the
descriptor, and on its last line reshape it and emit it (verbatim on the
first epoch, text-diffed and right-trimmed afterwards), followed by the
placeholder clock-offset line, then switch to `Body`. -/
def epochLine (c : Compressor) (line : String) : CRes :=
  let det : Except Error Nat :=
    if c.epoch_ptr = 0 then determine_nb_vehicules line else .ok c.nb_vehicules
  match det with
  | .error e => .error e c
  | .ok nb =>
      let c := { c with nb_vehicules := nb
                        epoch_ptr := c.epoch_ptr + 1
                        epoch_descriptor := c.epoch_descriptor ++ line ++ "\n" }
      let nb_lines := divCeil c.nb_vehicules 12 % 256
      if c.epoch_ptr = nb_lines then
        let desc := format_epoch_descriptor c.epoch_descriptor
        if c.first_epoch then
          .ok (desc ++ "\n")
            { c with epoch_descriptor := desc
                     epoch_diff := c.epoch_diff.init desc
                     first_epoch := false
                     obs_ptr := 0
                     vehicule_ptr := 0
                     flags_descriptor := ""
                     state := .Body }
        else
          let (out, td) := c.epoch_diff.compress desc
          .ok (rustTrimEnd out ++ "\n" ++ "\n")
            { c with epoch_descriptor := desc
                     epoch_diff := td
                     obs_ptr := 0
                     vehicule_ptr := 0
                     flags_descriptor := ""
                     state := .Body }
      else .ok "" c

/-- The comment check and FSM dispatch (source lines 230-552), i.e. the part
of the loop body after the early-blank-line handler. -/
def restLine (h : Header) (codes : List (Char × List String))
    (c : Compressor) (line : String) : CRes :=
  if is_comment line = true then
    let c := if containsSub line "RINEX FILE SPLICE" = true then
        { c with state := .EpochDescriptor }
      else c
    .ok (line ++ "\n") c
  else
    match c.state with
    | .EpochDescriptor => epochLine c line
    | .Body => bodyLine h codes c line

/-- The early-blank-line fill (source lines 200-209): two spaces per missing
observable appended to the flag block, a forced-reinit entry per missing
index, then `obs_ptr` advanced. -/
def blankFillAux (sv : Sv) (base : Nat) : Nat → Compressor → Compressor
  | 0, c => c
  | n + 1, c =>
      blankFillAux sv (base + 1) n
        { c with flags_descriptor := c.flags_descriptor ++ "  "
                 forced_init := scheduleOne c.forced_init sv base }

def blankFill (c : Compressor) (sv : Sv) (nb_missing : Nat) : Compressor :=
  let c2 := blankFillAux sv c.obs_ptr nb_missing c
  { c2 with obs_ptr := c2.obs_ptr + nb_missing }

/-- One input line of `compress` (source lines 185-552): the early-blank
handler, then comments, then the FSM. -/
def stepLine (h : Header) (codes : List (Char × List String))
    (c : Compressor) (line : String) : CRes :=
  if strLen (rustTrim line) = 0 ∧ c.state = State.Body ∧ 0 < c.obs_ptr then
    match current_vehicule h c with
    | .panic => .panic
    | .err _ => restLine h codes c line
    | .ok sv =>
        match alistGet codes sv.constellation with
        | none => .panic
        | some lst =>
            let sv_nb_obs := lst.length
            let nb_missing := min 5 (sv_nb_obs - c.obs_ptr)
            let c2 := blankFill c sv nb_missing
            let (frag, c3) :=
              if c2.obs_ptr = sv_nb_obs then conclude_vehicule c2 "" else ("", c2)
            if 0 < nb_missing then .ok frag c3
            else restLine h codes c3 line
  else restLine h codes c line

/-- The main loop of `compress` (source lines 184-553), iterating over the
lines of the input.  Output fragments are concatenated; a typed error or a
panic aborts the call (on a typed error the state mutations made so far
persist on the instance while the accumulated output is discarded, exactly
as in the source). -/
def compressLoop (h : Header) (codes : List (Char × List String)) :
    Compressor → List String → CRes
  | c, [] => .ok "" c
  | c, line :: rest =>
      match stepLine h codes c line with
      | .ok frag c2 =>
          match compressLoop h codes c2 rest with
          | .ok out c3 => .ok (frag ++ out) c3
          | r => r
      | r => r

/-- `Compressor::compress` (source lines 165-555): the file-kind sanity
check, the `header.obs.unwrap()` (a panic when the observation section is
absent), then the line loop. -/
def compress (h : Header) (content : String) (c : Compressor) : CRes :=
  if h.rinex_type ≠ RinexType.ObservationData then .error .NotObsRinexData c
  else
    match h.obs with
    | none => .panic
    | some obs => compressLoop h obs.codes c (rustLines content)

/-! ## Concrete fixtures

Headers, epoch descriptors and body lines used as concrete inputs by the
witnesses and counterexamples below.  `descLine` is a well-formed first
epoch-descriptor line: one leading space, 29 filler characters, the
satellite count at characters `[30..32]`, then the 3-character satellite
fields; after reshaping, the satellite fields land at characters
`[32 + 3k ..]` of the stored descriptor, exactly as `current_vehicule`
expects. -/

def gCodes2 : List (Char × List String) := [('G', ["L1C", "C1C"])]

def gCodes3 : List (Char × List String) := [('G', ["L1C", "C1C", "D1C"])]

/-- An observation header declaring two observables for GPS. -/
def hdrG2 : Header :=
  { rinex_type := .ObservationData, constellation := some 'G', obs := some { codes := gCodes2 } }

/-- An observation header declaring three observables for GPS. -/
def hdrG3 : Header :=
  { rinex_type := .ObservationData, constellation := some 'G', obs := some { codes := gCodes3 } }

/-- An observation header whose observable-codes table is absent. -/
def hNoObs : Header :=
  { rinex_type := .ObservationData, constellation := some 'G', obs := none }

/-- An observation header with no default constellation. -/
def hNoConst : Header :=
  { rinex_type := .ObservationData, constellation := none, obs := some { codes := gCodes2 } }

/-- A navigation header. -/
def hdrNav : Header :=
  { rinex_type := .NavigationData, constellation := some 'G', obs := some { codes := gCodes2 } }

def pad29 : String := ⟨List.replicate 29 'x'⟩

/-- A first descriptor line announcing one satellite, `G01`. -/
def descLine1 : String := " " ++ pad29 ++ " 1" ++ "G01"

/-- `descLine1` with three trailing spaces. -/
def descLineT : String := " " ++ pad29 ++ " 1" ++ "G01" ++ "   "

/-- The reshaped stored descriptor for the single satellite `G01`. -/
def descR : String := format_epoch_descriptor (descLine1 ++ "\n")

/-- A reshaped stored descriptor whose satellite field is digit-leading. -/
def descRdigit : String := format_epoch_descriptor ((" " ++ pad29 ++ " 1" ++ " 1 ") ++ "\n")

/-- A reshaped stored descriptor naming `R01`, a constellation absent from
`gCodes2`. -/
def descRmissing : String := format_epoch_descriptor ((" " ++ pad29 ++ " 1" ++ "R01") ++ "\n")

/-- A 14-character right-justified observable field. -/
def obsF (s : String) : String := spaces (14 - strLen s) ++ s

/-- A body line with two observables (the second with an LLI flag). -/
def line1 : String := obsF "12345.678" ++ "  " ++ obsF "54321.0" ++ "1 "

/-- A 30-character body line with two observables and no flags. -/
def line30 : String := obsF "1.0" ++ "  " ++ obsF "2.0"

/-- A 46-character body line with three observables. -/
def line46 : String := obsF "1.0" ++ "  " ++ obsF "2.0" ++ "  " ++ obsF "3.0"

def svG01 : Sv := ⟨'G', 1⟩

/-- A kernel triple seeded at order 3. -/
def k0 : Kernels := { nd := ⟨3, [1000]⟩, lli := ⟨" "⟩, ssi := ⟨" "⟩ }

/-- A `Body` state in the middle of satellite `G01` with one observable
already processed and its two flag characters `"15"` accumulated. -/
def cMid : Compressor :=
  { Compressor.new with
      state := .Body
      obs_ptr := 1
      flags_descriptor := "15"
      nb_vehicules := 2
      epoch_descriptor := descR }

/-- A `Body` state whose stored descriptor has a digit-leading satellite
field. -/
def cBodyDigit : Compressor :=
  { Compressor.new with
      state := .Body
      epoch_descriptor := descRdigit
      nb_vehicules := 1 }

/-- A `Body` state whose satellite's constellation is absent from the codes
table. -/
def cBodyR : Compressor :=
  { Compressor.new with
      state := .Body
      epoch_descriptor := descRmissing
      nb_vehicules := 1 }

/-- A `Body` state whose stored epoch descriptor is shorter than
`32 + 3·(vehicule_ptr + 1)` characters. -/
def cBodyShort : Compressor :=
  { Compressor.new with
      state := .Body
      epoch_descriptor := "&short"
      nb_vehicules := 1 }

/-- A `Body` state for `G01` whose observable 0 has a live kernel and whose
forced-reinit list contains the index 0 twice. -/
def cDouble : Compressor :=
  { Compressor.new with
      state := .Body
      sv_diff := [(svG01, [(0, k0)])]
      forced_init := [(svG01, [0, 0])] }

/-- A state that has just accumulated the first line of a two-line epoch
descriptor (so `epoch_ptr ≠ 0`) — reached e.g. right after a mid-descriptor
splice comment. -/
def cMidEpoch : Compressor :=
  { Compressor.new with
      state := .Body
      epoch_ptr := 1
      nb_vehicules := 1
      epoch_descriptor := descR }

/-- A comment line: the text `RINEX FILE SPLICE`, filler, and the marker
`COMMENT` past character 60. -/
def spliceComment : String := "RINEX FILE SPLICE" ++ ⟨List.replicate 43 'x'⟩ ++ "COMMENT"

/-- An ordinary comment line without a splice marker. -/
def plainComment : String := "hello" ++ ⟨List.replicate 55 'x'⟩ ++ "COMMENT"

/-- A 40-character line whose characters `[30..32]` do not parse as a
number. -/
def junkLine : String := ⟨List.replicate 40 'z'⟩

/-- The state produced by consuming one forced reinit of `cDouble`. -/
def cD2 : Compressor :=
  { Compressor.new with
      state := .Body
      sv_diff := [(svG01, [(0, { nd := ⟨3, [2000]⟩, lli := ⟨" "⟩, ssi := ⟨" "⟩ })])]
      forced_init := [(svG01, [0])] }

/-- The compressor state after feeding `hdrG2` the single descriptor line
`descLine1` (used to witness streaming-safety). -/
def c1W : Compressor :=
  { state := .Body
    first_epoch := false
    epoch_ptr := 1
    epoch_descriptor := descR
    flags_descriptor := ""
    nb_vehicules := 1
    vehicule_ptr := 0
    obs_ptr := 0
    epoch_diff := ⟨descR⟩
    clock_diff := ⟨5, []⟩
    sv_diff := []
    forced_init := [] }

/-- The compressor state after additionally feeding the body line `line1`. -/
def c2W : Compressor :=
  { state := .EpochDescriptor
    first_epoch := false
    epoch_ptr := 0
    epoch_descriptor := ""
    flags_descriptor := ""
    nb_vehicules := 1
    vehicule_ptr := 0
    obs_ptr := 0
    epoch_diff := ⟨descR⟩
    clock_diff := ⟨5, []⟩
    sv_diff := [(svG01,
      [(0, { nd := ⟨3, [12345678]⟩, lli := ⟨"&"⟩, ssi := ⟨"&"⟩ }),
       (1, { nd := ⟨3, [54321000]⟩, lli := ⟨"1"⟩, ssi := ⟨" "⟩ })])]
    forced_init := [] }

/-! ## Supporting lemmas -/

theorem strData_append (a b : String) : (a ++ b).data = a.data ++ b.data := by
  cases a; cases b; rfl

theorem strLen_append (a b : String) : strLen (a ++ b) = strLen a + strLen b := by
  show (a ++ b).data.length = a.data.length + b.data.length
  rw [strData_append, List.length_append]

theorem strAppend_assoc (a b c : String) : a ++ b ++ c = a ++ (b ++ c) := by
  cases a with | mk la => cases b with | mk lb => cases c with | mk lc =>
  exact congrArg String.mk (List.append_assoc la lb lc)

theorem strAppend_empty (s : String) : s ++ "" = s := by
  cases s with | mk l => exact congrArg String.mk (List.append_nil l)

theorem spaces_add (m n : Nat) : spaces (m + n) = spaces m ++ spaces n := by
  exact congrArg String.mk (List.replicate_add m n ' ')

theorem length_dropWhile_le' (p : Char → Bool) (l : List Char) :
    (l.dropWhile p).length ≤ l.length := by
  induction l with
  | nil => simp
  | cons a t ih =>
      by_cases h : p a
      · simp only [List.dropWhile, h, List.length_cons]
        omega
      · simp [List.dropWhile, h]

theorem diffChars_length (a b : List Char) : (diffChars a b).length = b.length := by
  induction a generalizing b with
  | nil => cases b <;> simp [diffChars]
  | cons x xs ih => cases b <;> simp [diffChars, ih]

theorem trim_length_le (s : String) : strLen (rustTrim s) ≤ strLen s := by
  have h1 : (trimStartL s.data).length ≤ s.data.length := length_dropWhile_le' _ _
  have h2 : (trimEndL (trimStartL s.data)).length ≤ (trimStartL s.data).length := by
    simpa [trimEndL] using length_dropWhile_le' isWs (trimStartL s.data).reverse
  simpa [rustTrim, strLen] using le_trans h2 h1

theorem all_ws_of_trim_nil {s : String} (h : strLen (rustTrim s) = 0) :
    ∀ x ∈ s.data, isWs x = true := by
  intro x hx
  have hnil : trimEndL (trimStartL s.data) = [] := by
    simpa [rustTrim, strLen, List.length_eq_zero] using h
  have hmid : ∀ y ∈ trimStartL s.data, isWs y = true := by
    intro y hy
    have : (trimStartL s.data).reverse.dropWhile isWs = [] := by
      have := congrArg List.reverse hnil
      simpa [trimEndL] using this
    exact (List.dropWhile_eq_nil_iff.mp this) y (by simpa using hy)
  rcases (List.takeWhile_append_dropWhile (p := isWs) (l := s.data)).symm ▸ hx with hx'
  rcases List.mem_append.mp hx' with htk | hdr
  · exact List.mem_takeWhile_imp htk
  · exact hmid x hdr

theorem containsSubL_subset {l p : List Char} (h : containsSubL l p = true) :
    ∀ x ∈ p, x ∈ l := by
  induction l with
  | nil =>
      intro x hx
      rw [containsSubL] at h
      split at h
      · rename_i hpre
        have := List.isPrefixOf_iff_prefix.mp hpre
        have hp : p = [] := List.prefix_nil.mp this
        subst hp; cases hx
      · exact absurd h (by simp_all [containsSubL])
  | cons a t ih =>
      intro x hx
      rw [containsSubL] at h
      split at h
      · rename_i hpre
        exact (List.isPrefixOf_iff_prefix.mp hpre).subset hx
      · exact List.mem_cons_of_mem a (ih h x hx)

theorem alistGet_alistSet_self {α β : Type} [DecidableEq α]
    (l : List (α × β)) (a : α) (b : β) : alistGet (alistSet l a b) a = some b := by
  induction l with
  | nil => simp [alistGet, alistSet]
  | cons kv t ih =>
      obtain ⟨k, v⟩ := kv
      by_cases hk : k = a <;> simp [alistGet, alistSet, hk, ih]

theorem blankFillAux_obs_ptr (sv : Sv) (base n : Nat) (c : Compressor) :
    (blankFillAux sv base n c).obs_ptr = c.obs_ptr := by
  induction n generalizing base c with
  | zero => rfl
  | succ n ih => simp [blankFillAux, ih]

theorem blankFillAux_flags (sv : Sv) (base n : Nat) (c : Compressor) :
    (blankFillAux sv base n c).flags_descriptor = c.flags_descriptor ++ spaces (2 * n) := by
  induction n generalizing base c with
  | zero =>
      show c.flags_descriptor = c.flags_descriptor ++ spaces 0
      rw [show spaces 0 = "" from rfl, strAppend_empty]
  | succ n ih =>
      rw [blankFillAux, ih]
      show (c.flags_descriptor ++ "  ") ++ spaces (2 * n) = _
      rw [Nat.mul_succ, Nat.add_comm (2 * n) 2, spaces_add, ← strAppend_assoc]
      rfl

theorem blankFillAux_forced (sv : Sv) (base n : Nat) (c : Compressor) (h : 0 < n) :
    alistGet (blankFillAux sv base n c).forced_init sv =
      some ((alistGet c.forced_init sv).getD [] ++ List.range' base n) := by
  have aux : ∀ m b (d : Compressor) xs, alistGet d.forced_init sv = some xs →
      alistGet (blankFillAux sv b m d).forced_init sv = some (xs ++ List.range' b m) := by
    intro m
    induction m with
    | zero => intro b d xs hx; simpa using hx
    | succ m ihm =>
        intro b d xs hx
        rw [blankFillAux]
        have hset : alistGet (scheduleOne d.forced_init sv b) sv = some (xs ++ [b]) := by
          rw [scheduleOne, hx]
          exact alistGet_alistSet_self _ _ _
        have := ihm (b + 1)
          { d with flags_descriptor := d.flags_descriptor ++ "  "
                   forced_init := scheduleOne d.forced_init sv b }
          (xs ++ [b]) hset
        rw [this, List.range'_succ]
        simp
  cases n with
  | zero => exact absurd h (by simp)
  | succ n =>
      rw [blankFillAux]
      have hset : alistGet (scheduleOne c.forced_init sv base) sv =
          some ((alistGet c.forced_init sv).getD [] ++ [base]) := by
        rw [scheduleOne]
        exact alistGet_alistSet_self _ _ _
      have := aux n (base + 1)
        { c with flags_descriptor := c.flags_descriptor ++ "  "
                 forced_init := scheduleOne c.forced_init sv base }
        ((alistGet c.forced_init sv).getD [] ++ [base]) hset
      rw [this, List.range'_succ]
      simp

theorem blankFillAux_state (sv : Sv) (base n : Nat) (c : Compressor) :
    (blankFillAux sv base n c).state = c.state := by
  induction n generalizing base c with
  | zero => rfl
  | succ n ih => simp [blankFillAux, ih]

theorem flags_nonempty {flags : String} (h : ¬ strLen (rustTrim flags) = 0) :
    flags.data ≠ [] := by
  intro hnil
  apply h
  cases flags with | mk l =>
  have hl : l = [] := hnil
  subst hl
  rfl

theorem strLen_take_one {flags : String} (h : flags.data ≠ []) :
    strLen (⟨flags.data.take 1⟩ : String) = 1 := by
  cases hl : flags.data with
  | nil => exact absurd hl h
  | cons a t => simp [strLen, hl]

theorem strSplitAt_one_lens {flags lli ssi : String} (h : strSplitAt 1 flags = (lli, ssi))
    (hne : flags.data ≠ []) (hfl : strLen flags ≤ 2) :
    strLen lli = 1 ∧ strLen ssi ≤ 1 := by
  have h1 : (⟨flags.data.take 1⟩ : String) = lli := congrArg Prod.fst h
  have h2 : (⟨flags.data.drop 1⟩ : String) = ssi := congrArg Prod.snd h
  constructor
  · rw [← h1]
    exact strLen_take_one hne
  · rw [← h2]
    show (flags.data.drop 1).length ≤ 1
    have h2l : flags.data.length ≤ 2 := hfl
    rw [List.length_drop]
    omega

theorem tdCompress_len (td : TextDiff) (s : String) :
    strLen (td.compress s).1 = strLen s := by
  simp [TextDiff.compress, strLen, diffChars_length]

/-- A comment line (marker beyond character 60) is never entirely blank. -/
theorem comment_not_blank {line : String} (hc : is_comment line = true) :
    ¬ strLen (rustTrim line) = 0 := by
  intro h0
  have hall := all_ws_of_trim_nil h0
  have hcs : containsSubL (line.data.drop 60) "COMMENT".data = true :=
    (Bool.and_eq_true _ _ |>.mp hc).2
  have hC : 'C' ∈ line.data.drop 60 := containsSubL_subset hcs 'C' (by decide)
  have hCl : 'C' ∈ line.data := List.mem_of_mem_drop hC
  have := hall 'C' hCl
  simp [isWs] at this

theorem lenOutFst (td : TextDiff) (s out : String) (t2 : TextDiff)
    (h : (if 0 < strLen s then td.compress s else (" ", td)) = (out, t2))
    (hs : strLen s ≤ 1) : strLen out = 1 := by
  by_cases h0 : 0 < strLen s
  · rw [if_pos h0] at h
    have hfst : (td.compress s).1 = out := congrArg Prod.fst h
    rw [← hfst, tdCompress_len]
    omega
  · rw [if_neg h0] at h
    have hfst : (" " : String) = out := congrArg Prod.fst h
    rw [← hfst]
    rfl

theorem lenOutSnd (s out : String) (t2 : TextDiff)
    (h : (if 0 < strLen s then (TextDiff.new.init s, s)
          else (TextDiff.new.init "&", " ")) = (t2, out))
    (hs : strLen s ≤ 1) : strLen out = 1 := by
  by_cases h0 : 0 < strLen s
  · rw [if_pos h0] at h
    have hsnd : s = out := congrArg Prod.snd h
    rw [← hsnd]
    omega
  · rw [if_neg h0] at h
    have hsnd : (" " : String) = out := congrArg Prod.snd h
    rw [← hsnd]
    rfl

theorem processField_noNotObs (sv : Sv) (o f : String) (c : Compressor) :
    (processField sv o f c).notObsErr = false := by
  unfold processField
  repeat' split
  all_goals simp_all [CRes.notObsErr, NumDiff.new, NumDiff.MAX_COMPRESSION_ORDER]

theorem determine_noNotObs (line : String) :
    determine_nb_vehicules line ≠ Except.error Error.NotObsRinexData := by
  unfold determine_nb_vehicules
  repeat' split
  all_goals simp

theorem fieldsLoop_noNotObs (sv : Sv) (N : Nat) :
    ∀ (n : Nat) (obs : String) (c : Compressor),
      (fieldsLoop sv N n obs c).notObsErr = false := by
  intro n
  induction n with
  | zero => intro obs c; rfl
  | succ n ih =>
      intro obs c
      rw [fieldsLoop]
      rcases hsp : strSplitAt (min 16 (strLen obs)) obs with ⟨data, rem⟩
      simp only [hsp]
      split
      · rfl
      · rcases hsp2 : strSplitAt 14 data with ⟨obsdata, flags⟩
        cases hpf : processField sv obsdata flags c with
        | ok frag c2 =>
            simp only []
            split
            · rfl
            · cases hfl : fieldsLoop sv N n rem { c2 with obs_ptr := c2.obs_ptr + 1 } with
              | ok out c4 => rfl
              | error e c4 =>
                  have := ih rem { c2 with obs_ptr := c2.obs_ptr + 1 }
                  rw [hfl] at this
                  exact this
              | panic => rfl
        | error e c2 =>
            have := processField_noNotObs sv obsdata flags c
            rw [hpf] at this
            exact this
        | panic => rfl

theorem fieldsPhase_noNotObs (sv : Sv) (N n : Nat) (line : String)
    (c : Compressor) (acc : String) :
    (fieldsPhase sv N n line c acc).notObsErr = false := by
  unfold fieldsPhase
  cases hfl : fieldsLoop sv N n line c with
  | ok out c2 =>
      simp only []
      split
      · rfl
      · rfl
  | error e c2 =>
      have := fieldsLoop_noNotObs sv N n line c
      rw [hfl] at this
      exact this
  | panic => rfl

theorem epochLine_noNotObs (c : Compressor) (line : String) :
    (epochLine c line).notObsErr = false := by
  unfold epochLine
  cases hdet : (if c.epoch_ptr = 0 then determine_nb_vehicules line
      else Except.ok c.nb_vehicules) with
  | error e =>
      simp only []
      have hne : e ≠ Error.NotObsRinexData := by
        by_cases h0 : c.epoch_ptr = 0
        · rw [if_pos h0] at hdet
          intro he
          subst he
          exact determine_noNotObs line hdet
        · rw [if_neg h0] at hdet
          cases hdet
      cases e <;> simp_all [CRes.notObsErr]
  | ok nb =>
      simp only []
      repeat' split
      all_goals rfl

theorem bodyLine_noNotObs (h : Header) (codes : List (Char × List String))
    (c : Compressor) (line : String) :
    (bodyLine h codes c line).notObsErr = false := by
  unfold bodyLine
  cases hv : current_vehicule h c with
  | panic => rfl
  | err e => rfl
  | ok sv =>
      simp only []
      cases hg : alistGet codes sv.constellation with
      | none => rfl
      | some lst =>
          simp only []
          split
          · rcases hcv : conclude_vehicule
                { c with forced_init := scheduleRange c.forced_init sv c.obs_ptr lst.length }
                (spaces (lst.length - c.obs_ptr)) with ⟨frag2, c3⟩
            simp only []
            split
            · cases hdet : determine_nb_vehicules line with
              | error e =>
                  have hne : e ≠ Error.NotObsRinexData := by
                    intro he
                    subst he
                    exact determine_noNotObs line hdet
                  cases e <;> simp_all [CRes.notObsErr]
              | ok nb => rfl
            · exact fieldsPhase_noNotObs sv lst.length (divCeil (strLen line) 17) line c3 frag2
          · exact fieldsPhase_noNotObs sv lst.length (divCeil (strLen line) 17) line c ""

theorem restLine_noNotObs (h : Header) (codes : List (Char × List String))
    (c : Compressor) (line : String) :
    (restLine h codes c line).notObsErr = false := by
  unfold restLine
  split
  · rfl
  · cases hst : c.state with
    | EpochDescriptor => exact epochLine_noNotObs _ _
    | Body => exact bodyLine_noNotObs h codes c line

theorem stepLine_noNotObs (h : Header) (codes : List (Char × List String))
    (c : Compressor) (line : String) :
    (stepLine h codes c line).notObsErr = false := by
  unfold stepLine
  split
  · cases hv : current_vehicule h c with
    | panic => rfl
    | err e => exact restLine_noNotObs h codes c line
    | ok sv =>
        simp only []
        cases hg : alistGet codes sv.constellation with
        | none => rfl
        | some lst =>
            simp only []
            rcases hp : (if (blankFill c sv (min 5 (lst.length - c.obs_ptr))).obs_ptr = lst.length
                then conclude_vehicule (blankFill c sv (min 5 (lst.length - c.obs_ptr))) ""
                else ("", blankFill c sv (min 5 (lst.length - c.obs_ptr)))) with ⟨frag, c3⟩
            simp only [hp]
            split
            · rfl
            · exact restLine_noNotObs h codes c3 line
  · exact restLine_noNotObs h codes c line

theorem compressLoop_noNotObs (h : Header) (codes : List (Char × List String)) :
    ∀ (lines : List String) (c : Compressor),
      (compressLoop h codes c lines).notObsErr = false := by
  intro lines
  induction lines with
  | nil => intro c; rfl
  | cons line rest ih =>
      intro c
      rw [compressLoop]
      cases hs : stepLine h codes c line with
      | ok frag c2 =>
          simp only []
          cases hr : compressLoop h codes c2 rest with
          | ok out c3 => rfl
          | error e c3 =>
              have := ih c2
              rw [hr] at this
              exact this
          | panic => rfl
      | error e c2 =>
          have := stepLine_noNotObs h codes c line
          rw [hs] at this
          exact this
      | panic => rfl

theorem compressLoop_append (h : Header) (codes : List (Char × List String))
    (l1 l2 : List String) (c1 c2 : Compressor) (o2 : String) :
    ∀ (c : Compressor) (o1 : String),
    compressLoop h codes c l1 = .ok o1 c1 →
    compressLoop h codes c1 l2 = .ok o2 c2 →
    compressLoop h codes c (l1 ++ l2) = .ok (o1 ++ o2) c2 := by
  induction l1 with
  | nil =>
      intro c o1 h1 h2
      rw [compressLoop] at h1
      cases h1
      exact h2
  | cons line rest ih =>
      intro c o1 h1 h2
      rw [compressLoop] at h1
      rw [List.cons_append, compressLoop]
      cases hs : stepLine h codes c line with
      | ok frag c' =>
          rw [hs] at h1
          have h1' : (match compressLoop h codes c' rest with
              | CRes.ok out c3 => CRes.ok (frag ++ out) c3
              | r => r) = CRes.ok o1 c1 := h1
          cases hr : compressLoop h codes c' rest with
          | ok out c'' =>
              rw [hr] at h1'
              cases h1'
              have hcomb := ih c' out hr h2
              show (match compressLoop h codes c' (rest ++ l2) with
                  | CRes.ok out c3 => CRes.ok (frag ++ out) c3
                  | r => r) = CRes.ok (frag ++ out ++ o2) c2
              rw [hcomb]
              show CRes.ok (frag ++ (out ++ o2)) c2 = CRes.ok (frag ++ out ++ o2) c2
              rw [strAppend_assoc]
          | error e c'' =>
              rw [hr] at h1'
              cases h1'
          | panic =>
              rw [hr] at h1'
              cases h1'
      | error e c' =>
          rw [hs] at h1
          have h1' : CRes.error e c' = CRes.ok o1 c1 := h1
          cases h1'
      | panic =>
          rw [hs] at h1
          have h1' : CRes.panic = CRes.ok o1 c1 := h1
          cases h1'

/-! ## Claim C1 -/

/-- Claim C1, counterexample: for an `ObservationData` header whose
observable-codes table is absent, `compress` panics (the
`header.obs.as_ref().unwrap()` executed before the line loop), so it
returns neither `Ok` nor a typed `Error`, contradicting the claim. -/
theorem claim1_counterexample :
    compress hNoObs "" Compressor.new = CRes.panic := by decide

/-- Claim C1 (amended): in each of the four scenarios the claim lists,
`compress` panics instead of returning a typed `Error`: (1) an
`ObservationData` header with an absent observable-codes table; (2) a
digit-leading satellite field with no default constellation in the header;
(3) a satellite whose constellation is missing from the codes table; (4) an
epoch descriptor shorter than `32 + 3·(vehicule_ptr + 1)` characters. -/
theorem claim1_amended :
    compress hNoObs "" Compressor.new = CRes.panic
    ∧ compress hNoConst (line30 ++ "\n") cBodyDigit = CRes.panic
    ∧ compress hdrG2 (line30 ++ "\n") cBodyR = CRes.panic
    ∧ compress hdrG2 (line30 ++ "\n") cBodyShort = CRes.panic := by
  refine ⟨by decide, by decide, by decide, by decide⟩

/-! ## Claim C2, counterexample -/

/-- Claim C2, counterexample: in `Body` state with `obs_ptr = 1` and
`N = 2`, a blank input line concludes the satellite but emits **no** space
character for the missing observable: the whole output is the flag flush
`"15\n"`, not `" 15\n"`.  The forced-reinit entry and flag spaces are
appended as claimed (the flushed block is `"15  "` right-trimmed). -/
theorem claim2_counterexample :
    (compress hdrG2 "\n" cMid).output = some "15\n"
    ∧ some "15\n" ≠ some (" " ++ "15\n")
    ∧ (compress hdrG2 "\n" cMid).stateOf.map Compressor.forced_init = some [(svG01, [1])]
    ∧ (compress hdrG2 "\n" cMid).stateOf.map Compressor.obs_ptr = some 0 := by
  refine ⟨by decide, by decide, by decide, by decide⟩

/-- Claim C2 (amended): in `Body` state with `obs_ptr > 0`, on an entirely
blank line with `nb_missing = min(5, N − obs_ptr)`: **no** space characters
are emitted to the output (the only output, if any, is the conclusion
flush), exactly two spaces per missing observable are appended to
`flags_descriptor`, a forced-reinit entry is scheduled for each missing
index, `obs_ptr` advances by `nb_missing`, and the satellite is concluded
exactly when `obs_ptr` reaches `N`. -/
theorem claim2_amended (h : Header) (codes : List (Char × List String))
    (c : Compressor) (line : String) (sv : Sv) (lst : List String)
    (hblank : strLen (rustTrim line) = 0)
    (hst : c.state = State.Body)
    (hobs : 0 < c.obs_ptr)
    (hveh : current_vehicule h c = VehRes.ok sv)
    (hget : alistGet codes sv.constellation = some lst)
    (hlt : c.obs_ptr < lst.length) :
    stepLine h codes c line =
      (if (blankFill c sv (min 5 (lst.length - c.obs_ptr))).obs_ptr = lst.length then
        CRes.ok (conclude_vehicule (blankFill c sv (min 5 (lst.length - c.obs_ptr))) "").1
          (conclude_vehicule (blankFill c sv (min 5 (lst.length - c.obs_ptr))) "").2
       else CRes.ok "" (blankFill c sv (min 5 (lst.length - c.obs_ptr))))
    ∧ (blankFill c sv (min 5 (lst.length - c.obs_ptr))).flags_descriptor
        = c.flags_descriptor ++ spaces (2 * min 5 (lst.length - c.obs_ptr))
    ∧ (blankFill c sv (min 5 (lst.length - c.obs_ptr))).obs_ptr
        = c.obs_ptr + min 5 (lst.length - c.obs_ptr)
    ∧ alistGet (blankFill c sv (min 5 (lst.length - c.obs_ptr))).forced_init sv
        = some ((alistGet c.forced_init sv).getD []
            ++ List.range' c.obs_ptr (min 5 (lst.length - c.obs_ptr))) := by
  have hpos : 0 < min 5 (lst.length - c.obs_ptr) := by omega
  refine ⟨?_, ?_, ?_, ?_⟩
  · simp only [stepLine, hblank, hst, hobs, hveh, hget, eq_self_iff_true, true_and,
      and_self, if_true, hpos]
    by_cases hN : (blankFill c sv (min 5 (lst.length - c.obs_ptr))).obs_ptr = lst.length
    · rcases hcv : conclude_vehicule (blankFill c sv (min 5 (lst.length - c.obs_ptr))) ""
        with ⟨fr, c3⟩
      simp [hN, hcv]
    · simp [hN]
  · show (blankFillAux sv c.obs_ptr (min 5 (lst.length - c.obs_ptr)) c).flags_descriptor = _
    exact blankFillAux_flags sv c.obs_ptr _ c
  · show (blankFillAux sv c.obs_ptr (min 5 (lst.length - c.obs_ptr)) c).obs_ptr
        + min 5 (lst.length - c.obs_ptr) = _
    rw [blankFillAux_obs_ptr]
  · show alistGet (blankFillAux sv c.obs_ptr (min 5 (lst.length - c.obs_ptr)) c).forced_init sv = _
    exact blankFillAux_forced sv c.obs_ptr _ c hpos

/-- Claim C2, witness: the blank-line step from `cMid` (`obs_ptr = 1`,
`N = 2`): one missing observable, conclusion reached. -/
theorem claim2_witness :
    (stepLine hdrG2 gCodes2 cMid "" =
      (if (blankFill cMid svG01 (min 5 (2 - cMid.obs_ptr))).obs_ptr = 2 then
        CRes.ok (conclude_vehicule (blankFill cMid svG01 (min 5 (2 - cMid.obs_ptr))) "").1
          (conclude_vehicule (blankFill cMid svG01 (min 5 (2 - cMid.obs_ptr))) "").2
       else CRes.ok "" (blankFill cMid svG01 (min 5 (2 - cMid.obs_ptr))))) ∧
    (blankFill cMid svG01 (min 5 (2 - cMid.obs_ptr))).flags_descriptor
      = cMid.flags_descriptor ++ spaces (2 * min 5 (2 - cMid.obs_ptr)) := by
  have h := claim2_amended hdrG2 gCodes2 cMid "" svG01 ["L1C", "C1C"]
    (by decide) (by decide) (by decide) (by decide) (by decide) (by decide)
  exact ⟨h.1, h.2.1⟩

/-! ## Claim C3, counterexample -/

/-- Claim C3, counterexample: on the overflow-guard conclusion path the
flushed flag block is **not** `2·N` characters long.  With `obs_ptr = 1`,
accumulated flags `"15"` and `N = 3`, the 46-character line triggers the
overflow guard (`1 + 3 > 3`); the state passed to `conclude_vehicule` still
has the 2-character flag block `"15"`, not `2·3 = 6` characters, and the
step's output shows `"15"` being flushed right after the two omission
spaces. -/
theorem claim3_counterexample :
    3 < cMid.obs_ptr + divCeil (strLen line46) 17
    ∧ ({ cMid with forced_init := scheduleRange cMid.forced_init svG01 cMid.obs_ptr 3
         } : Compressor).flags_descriptor = "15"
    ∧ strLen "15" ≠ 2 * 3
    ∧ (stepLine hdrG3 gCodes3 cMid line46).output
        = some ("  " ++ "15" ++ "\n" ++ "3&1000 3&2000 3&3000 " ++ "\n") := by
  refine ⟨by decide, by decide, by decide, by decide⟩

/-- Claim C3 (amended): each processed observable field appends exactly
zero or two characters to `flags_descriptor`: two on first encounters, on
parse failures and when flags are present; zero when the flags are omitted
but the kernel for the (satellite, index) pair already exists.  Since
trailing observables omitted on the overflow-guard path contribute nothing
either, the flag block flushed at a conclusion is always of even length but
not necessarily `2·N(constellation)`. -/
theorem claim3_amended (sv : Sv) (obsdata flags : String) (c : Compressor)
    (out : String) (c2 : Compressor)
    (hfl : strLen flags ≤ 2)
    (hok : processField sv obsdata flags c = CRes.ok out c2) :
    strLen c2.flags_descriptor = strLen c.flags_descriptor ∨
      strLen c2.flags_descriptor = strLen c.flags_descriptor + 2 := by
  unfold processField at hok
  cases hparse : parseObsScaled (rustTrim obsdata) with
  | none =>
      simp only [hparse] at hok
      cases hok
      right
      rw [strLen_append]
      rfl
  | some v =>
      simp only [hparse] at hok
      by_cases hf0 : strLen (rustTrim flags) = 0
      · rw [if_pos hf0] at hok
        cases hsd : alistGet c.sv_diff sv with
        | some svd =>
            simp only [hsd] at hok
            cases hks : alistGet svd c.obs_ptr with
            | some ks =>
                simp only [hks] at hok
                cases hnt : numToken sv c.obs_ptr v ks.nd c.forced_init with
                | none => simp only [hnt] at hok; cases hok
                | some trip =>
                    obtain ⟨tok, nd2, f2⟩ := trip
                    simp only [hnt] at hok
                    cases hok
                    left
                    rfl
            | none =>
                simp only [hks, NumDiff.new, NumDiff.MAX_COMPRESSION_ORDER,
                  NumDiff.init, reduceIte] at hok
                cases hok
                right
                rw [strLen_append]
                rfl
        | none =>
            simp only [hsd, NumDiff.new, NumDiff.MAX_COMPRESSION_ORDER,
              NumDiff.init, reduceIte] at hok
            cases hok
            right
            rw [strLen_append]
            rfl
      · have hne := flags_nonempty hf0
        rw [if_neg hf0] at hok
        rcases hsp : strSplitAt 1 flags with ⟨lli, ssi⟩
        obtain ⟨hlli, hssi⟩ := strSplitAt_one_lens hsp hne hfl
        simp only [hsp] at hok
        cases hsd : alistGet c.sv_diff sv with
        | some svd =>
            simp only [hsd] at hok
            cases hks : alistGet svd c.obs_ptr with
            | some ks =>
                simp only [hks] at hok
                cases hnt : numToken sv c.obs_ptr v ks.nd c.forced_init with
                | none => simp only [hnt] at hok; cases hok
                | some trip =>
                    obtain ⟨tok, nd2, f2⟩ := trip
                    simp only [hnt] at hok
                    rcases hl : (if 0 < strLen lli then ks.lli.compress lli
                        else (" ", ks.lli)) with ⟨lliOut, td1⟩
                    rcases hr : (if 0 < strLen ssi then ks.ssi.compress ssi
                        else (" ", ks.ssi)) with ⟨ssiOut, td2⟩
                    simp only [hl, hr] at hok
                    cases hok
                    right
                    rw [strLen_append, strLen_append,
                      lenOutFst ks.lli lli lliOut td1 hl (le_of_eq hlli),
                      lenOutFst ks.ssi ssi ssiOut td2 hr hssi]
            | none =>
                simp only [hks, NumDiff.new, NumDiff.MAX_COMPRESSION_ORDER,
                  NumDiff.init, reduceIte] at hok
                rcases hl : (if 0 < strLen lli then (TextDiff.new.init lli, lli)
                    else (TextDiff.new.init "&", " ")) with ⟨td1, f1⟩
                rcases hr : (if 0 < strLen ssi then (TextDiff.new.init ssi, ssi)
                    else (TextDiff.new.init "&", " ")) with ⟨td2, f2⟩
                simp only [hl, hr] at hok
                cases hok
                right
                rw [strLen_append, strLen_append,
                  lenOutSnd lli f1 td1 hl (le_of_eq hlli),
                  lenOutSnd ssi f2 td2 hr hssi]
        | none =>
            simp only [hsd, NumDiff.new, NumDiff.MAX_COMPRESSION_ORDER,
              NumDiff.init, reduceIte] at hok
            rcases hr : (if 0 < strLen ssi then (TextDiff.new.init ssi, ssi)
                else (TextDiff.new.init "&", " ")) with ⟨td2, f2⟩
            simp only [hr] at hok
            cases hok
            right
            rw [strLen_append, strLen_append, hlli,
              lenOutSnd ssi f2 td2 hr hssi]

/-- Claim C3, witness: a forced-reinit consumption step with omitted flags
appends zero flag characters. -/
theorem claim3_witness :
    strLen cD2.flags_descriptor = strLen cDouble.flags_descriptor ∨
      strLen cD2.flags_descriptor = strLen cDouble.flags_descriptor + 2 :=
  claim3_amended svG01 (obsF "2.0") "  " cDouble ("3&" ++ intToStr 2000 ++ " ") cD2
    (by decide) (by decide)

/-! ## Claim C4, counterexample -/

/-- Claim C4, counterexample: when the same observable index is scheduled
twice in the pending-reinit list, consuming a forced reinit removes only
**one** occurrence, so the index stays scheduled and the *next* sample is
emitted as a second `3&` seed instead of a pure delta — the output contains
two `3&`-prefixed tokens for the pair before any delta, contradicting
"exactly one … even if the same index was scheduled multiple times". -/
theorem claim4_counterexample :
    (processField svG01 (obsF "2.0") "  " cDouble).output = some ("3&" ++ intToStr 2000 ++ " ")
    ∧ (processField svG01 (obsF "2.0") "  " cDouble).stateOf.map Compressor.forced_init
        = some [(svG01, [0])]
    ∧ (processField svG01 (obsF "2.0") "  " cDouble).stateOf.map
        (fun c2 => (processField svG01 (obsF "3.0") "  " c2).output)
        = some (some ("3&" ++ intToStr 3000 ++ " ")) := by
  refine ⟨by decide, by decide, by decide⟩

/-- Claim C4 (amended): consuming a forced reinit removes exactly **one**
scheduled occurrence of the index.  When the flags are omitted, the kernel
for the (satellite, index) pair exists and the pending list for the
satellite contains the current index, the parsed sample is emitted as a
`3&`-prefixed seed, the numeric differentiator is re-initialized at order 3
with that sample, and one occurrence of the index is removed from the
pending list — so an index scheduled `k` times yields `k` consecutive
`3&` seeds before any further pure-delta token. -/
theorem claim4_amended (sv : Sv) (obsdata flags : String) (c : Compressor) (v : Int)
    (svd : List (Nat × Kernels)) (ks : Kernels) (ixs : List Nat)
    (hp : parseObsScaled (rustTrim obsdata) = some v)
    (hf : strLen (rustTrim flags) = 0)
    (hsvd : alistGet c.sv_diff sv = some svd)
    (hks : alistGet svd c.obs_ptr = some ks)
    (hix : alistGet c.forced_init sv = some ixs)
    (hmem : ixs.contains c.obs_ptr = true) :
    processField sv obsdata flags c =
      CRes.ok ("3&" ++ intToStr v ++ " ")
        { c with
          sv_diff := alistSet c.sv_diff sv
            (alistSet svd c.obs_ptr { ks with nd := ⟨3, [v]⟩ })
          forced_init := alistSet c.forced_init sv (removeFirst ixs c.obs_ptr) } := by
  simp only [processField, hp, hf, hsvd, hks, numToken, hix, hmem, NumDiff.init,
    NumDiff.MAX_COMPRESSION_ORDER, if_true, reduceIte]
  rfl

/-- Claim C4, witness: a live kernel at `(G01, 0)` with the index scheduled
twice; one application of the consumption step. -/
theorem claim4_witness :
    processField svG01 (obsF "2.0") "  " cDouble =
      CRes.ok ("3&" ++ intToStr 2000 ++ " ")
        { cDouble with
          sv_diff := alistSet cDouble.sv_diff svG01
            (alistSet [(0, k0)] 0 { k0 with nd := ⟨3, [2000]⟩ })
          forced_init := alistSet cDouble.forced_init svG01 (removeFirst [0, 0] 0) } :=
  claim4_amended svG01 (obsF "2.0") "  " cDouble 2000 [(0, k0)] k0 [0, 0]
    (by decide) (by decide) (by decide) (by decide) (by decide) (by decide)

/-! ## Claim C5 -/

/-- Claim C5: a 14-character observable field that fails to parse is not an
error: the field step emits exactly one space to the output, appends
exactly two spaces to `flags_descriptor`, schedules a forced reinit at the
current observable index, advances past the field and continues with the
remaining fields of the line. -/
theorem claim5_theorem (sv : Sv) (N n : Nat)
    (observables data rem obsdata flags : String) (c : Compressor)
    (hs1 : strSplitAt (min 16 (strLen observables)) observables = (data, rem))
    (hlen : ¬ strLen data < 14)
    (hs2 : strSplitAt 14 data = (obsdata, flags))
    (hp : parseObsScaled (rustTrim obsdata) = none)
    (hobs : c.obs_ptr < N) :
    fieldsLoop sv N (n + 1) observables c =
      (match fieldsLoop sv N n rem
          { c with flags_descriptor := c.flags_descriptor ++ "  "
                   forced_init := scheduleOne c.forced_init sv c.obs_ptr
                   obs_ptr := c.obs_ptr + 1 } with
       | .ok out c4 => .ok (" " ++ out) c4
       | r => r) := by
  have hnotlt : ¬ N < c.obs_ptr + 1 := by omega
  simp only [fieldsLoop, hs1, hlen, hs2, processField, hp, hnotlt, reduceIte, if_false]

/-- Claim C5, witness: a line of fourteen `z` characters, one field, one
remaining field count of zero. -/
theorem claim5_witness :
    fieldsLoop svG01 1 1 ⟨List.replicate 14 'z'⟩ Compressor.new =
      (match fieldsLoop svG01 1 0 ""
          { Compressor.new with
              flags_descriptor := Compressor.new.flags_descriptor ++ "  "
              forced_init := scheduleOne Compressor.new.forced_init svG01 Compressor.new.obs_ptr
              obs_ptr := Compressor.new.obs_ptr + 1 } with
       | .ok out c4 => .ok (" " ++ out) c4
       | r => r) :=
  claim5_theorem svG01 1 0 ⟨List.replicate 14 'z'⟩ ⟨List.replicate 14 'z'⟩ "" ⟨List.replicate 14 'z'⟩ ""
    Compressor.new (by decide) (by decide) (by decide) (by decide) (by decide)

/-! ## Claim C6, counterexample -/

/-- Claim C6, counterexample: reshaping strips **trailing** whitespace of
each descriptor line too (the source applies `str::trim`, not a
leading-only strip): for a first descriptor line with three trailing
spaces, the first epoch's emitted descriptor lacks them, whereas the
claim's leading-strip-only reshape would keep them. -/
theorem claim6_counterexample :
    (compress hdrG2 (descLineT ++ "\n") Compressor.new).output
      = some ("&" ++ pad29 ++ " 1G01" ++ "\n" ++ "\n")
    ∧ ("&" ++ pad29 ++ " 1G01" ++ "\n" ++ "\n") ≠ ("&" ++ pad29 ++ " 1G01   " ++ "\n" ++ "\n") := by
  refine ⟨by decide, by decide⟩

/-- Claim C6 (amended): when the last line of an epoch descriptor block has
been accumulated, the descriptor is reshaped to the single line `&` followed
by each descriptor line with all leading **and trailing** whitespace
stripped, concatenated, plus one trailing newline; on the first epoch this
reshaped descriptor is emitted verbatim followed by an empty clock-offset
line, and on every later epoch the output is the text differentiator's
compression of the reshaped descriptor, right-trimmed, followed by a
newline and an empty clock-offset line. -/
theorem claim6_amended (h : Header) (codes : List (Char × List String))
    (c : Compressor) (line : String)
    (hst : c.state = State.EpochDescriptor)
    (hcomment : is_comment line = false)
    (hptr : c.epoch_ptr ≠ 0)
    (hdone : c.epoch_ptr + 1 = divCeil c.nb_vehicules 12 % 256) :
    (stepLine h codes c line).output =
      some (if c.first_epoch then
          format_epoch_descriptor (c.epoch_descriptor ++ line ++ "\n") ++ "\n"
        else
          rustTrimEnd (c.epoch_diff.compress
              (format_epoch_descriptor (c.epoch_descriptor ++ line ++ "\n"))).1
            ++ "\n" ++ "\n")
    ∧ (stepLine h codes c line).stateOf.map Compressor.state = some State.Body
    ∧ format_epoch_descriptor (c.epoch_descriptor ++ line ++ "\n")
        = "&" ++ String.join ((rustLines (c.epoch_descriptor ++ line ++ "\n")).map
            (fun l => rustTrim l)) ++ "\n" := by
  refine ⟨?_, ?_, rfl⟩ <;>
  · simp only [stepLine, hst, restLine, hcomment, epochLine, hptr, hdone,
      reduceCtorEq, and_false, false_and, if_false, Bool.false_eq_true, ite_false]
    by_cases hfe : c.first_epoch
    · simp [hfe, CRes.output, CRes.stateOf]
    · rcases hcp : c.epoch_diff.compress
          (format_epoch_descriptor (c.epoch_descriptor ++ line ++ "\n")) with ⟨out, td⟩
      simp [hfe, hcp, CRes.output, CRes.stateOf]

/-- Claim C6, witness: a second epoch-descriptor line completing a
13-satellite descriptor block on a non-first epoch is emitted through the
text differentiator. -/
theorem claim6_witness :
    (stepLine hdrG2 gCodes2
        { Compressor.new with
            state := .EpochDescriptor
            first_epoch := false
            epoch_ptr := 1
            nb_vehicules := 13
            epoch_descriptor := descLine1 ++ "\n"
            epoch_diff := ⟨descR⟩ }
        "G02").output =
      some (rustTrimEnd ((⟨descR⟩ : TextDiff).compress
          (format_epoch_descriptor ((descLine1 ++ "\n") ++ "G02" ++ "\n"))).1
        ++ "\n" ++ "\n") := by
  have h := claim6_amended hdrG2 gCodes2
    { Compressor.new with
        state := .EpochDescriptor
        first_epoch := false
        epoch_ptr := 1
        nb_vehicules := 13
        epoch_descriptor := descLine1 ++ "\n"
        epoch_diff := ⟨descR⟩ }
    "G02" (by decide) (by decide) (by decide) (by decide)
  exact h.1

/-- Claim C7 (amended): every comment line is emitted verbatim followed by
a newline without running the FSM on it, and a `RINEX FILE SPLICE` comment
resets **only** the two-valued FSM state to `EpochDescriptor` — every other
field (`epoch_ptr`, `epoch_descriptor`, …) is left untouched, so the next
non-comment line is parsed as the first line of a fresh epoch descriptor
only when `epoch_ptr` is 0. -/
theorem claim7_amended (h : Header) (codes : List (Char × List String))
    (c : Compressor) (line : String)
    (hc : is_comment line = true) :
    stepLine h codes c line =
      CRes.ok (line ++ "\n")
        (if containsSub line "RINEX FILE SPLICE" = true then
          { c with state := State.EpochDescriptor }
        else c) := by
  have hnb : ¬ (strLen (rustTrim line) = 0 ∧ c.state = State.Body ∧ 0 < c.obs_ptr) := by
    intro hh
    exact comment_not_blank hc hh.1
  unfold stepLine restLine
  rw [if_neg hnb, if_pos hc]

/-- Claim C7, witness: the splice comment and a plain comment, from the
mid-epoch state. -/
theorem claim7_witness :
    stepLine hdrG2 gCodes2 cMidEpoch spliceComment =
      CRes.ok (spliceComment ++ "\n")
        (if containsSub spliceComment "RINEX FILE SPLICE" = true then
          { cMidEpoch with state := State.EpochDescriptor }
        else cMidEpoch) :=
  claim7_amended hdrG2 gCodes2 cMidEpoch spliceComment (by decide)

/-! ## Claim C7, counterexample -/

/-- Claim C7, counterexample: a `RINEX FILE SPLICE` comment arriving while
`epoch_ptr ≠ 0` resets only the two-valued FSM state, not `epoch_ptr` or
`epoch_descriptor`; the next non-comment line is therefore **not** parsed
as the first line of a fresh epoch descriptor: its characters `[30..32]`
are never parsed (parsing them would return `MalformedEpochDescriptor`,
but the call succeeds and `nb_vehicules` is left untouched). -/
theorem claim7_counterexample :
    (compress hdrG2 (spliceComment ++ "\n" ++ junkLine ++ "\n") cMidEpoch).errOf = none
    ∧ (compress hdrG2 (spliceComment ++ "\n" ++ junkLine ++ "\n") cMidEpoch).stateOf.map
        Compressor.nb_vehicules = some 1
    ∧ determine_nb_vehicules junkLine = Except.error Error.MalformedEpochDescriptor := by
  refine ⟨by decide, by decide, by rfl⟩

/-! ## Claim C8 -/

/-- Claim C8: a non-observation header makes `compress` return the
`NotObsRinexData` error immediately — its state argument is returned
untouched and no output is produced (the error result carries none) —
and conversely, for an observation header no run of `compress` ever
returns `NotObsRinexData`. -/
theorem claim8_theorem (h : Header) (content : String) (c : Compressor) :
    (h.rinex_type ≠ RinexType.ObservationData →
      compress h content c = CRes.error Error.NotObsRinexData c)
    ∧ (h.rinex_type = RinexType.ObservationData →
      (compress h content c).notObsErr = false) := by
  constructor
  · intro hne
    unfold compress
    rw [if_pos hne]
  · intro hk
    unfold compress
    rw [if_neg (by simp [hk])]
    cases hobs : h.obs with
    | none => rfl
    | some ob => exact compressLoop_noNotObs h ob.codes (rustLines content) c

/-- Claim C8, witness: the navigation header errors out with an untouched
state, and an observation-header run carries no `NotObsRinexData`. -/
theorem claim8_witness :
    compress hdrNav line1 Compressor.new = CRes.error Error.NotObsRinexData Compressor.new
    ∧ (compress hdrG2 (descLine1 ++ "\n") Compressor.new).notObsErr = false :=
  ⟨(claim8_theorem hdrNav line1 Compressor.new).1 (by decide),
   (claim8_theorem hdrG2 (descLine1 ++ "\n") Compressor.new).2 (by decide)⟩

/-! ## Claim C9 -/

/-- Claim C9: compression is streaming-safe.  For every header and every
line-aligned split of the input into two chunks (line-aligned meaning the
line decomposition of the concatenation is the concatenation of the two
line decompositions), running `compress` on the first chunk and then on the
second chunk with the retained state yields outputs whose concatenation,
and a final state, equal to those of a single `compress` call on the whole
input — whenever all calls succeed. -/
theorem claim9_theorem (h : Header) (s1 s2 : String) (c c1 c2 : Compressor)
    (o1 o2 : String)
    (hsplit : rustLines (s1 ++ s2) = rustLines s1 ++ rustLines s2)
    (h1 : compress h s1 c = .ok o1 c1)
    (h2 : compress h s2 c1 = .ok o2 c2) :
    compress h (s1 ++ s2) c = .ok (o1 ++ o2) c2 := by
  unfold compress at h1 h2 ⊢
  by_cases hk : h.rinex_type ≠ RinexType.ObservationData
  · rw [if_pos hk] at h1
    cases h1
  · rw [if_neg hk] at h1 h2 ⊢
    cases hobs : h.obs with
    | none =>
        rw [hobs] at h1
        have h1' : CRes.panic = CRes.ok o1 c1 := h1
        cases h1'
    | some ob =>
        rw [hobs] at h1 h2
        have h1' : compressLoop h ob.codes c (rustLines s1) = CRes.ok o1 c1 := h1
        have h2' : compressLoop h ob.codes c1 (rustLines s2) = CRes.ok o2 c2 := h2
        show compressLoop h ob.codes c (rustLines (s1 ++ s2)) = CRes.ok (o1 ++ o2) c2
        rw [hsplit]
        exact compressLoop_append h ob.codes _ _ c1 c2 o2 c o1 h1' h2'

/-- Claim C9, witness: splitting a one-epoch input between the descriptor
line and the body line. -/
theorem claim9_witness :
    compress hdrG2 ((descLine1 ++ "\n") ++ (line1 ++ "\n")) Compressor.new
      = CRes.ok (("&" ++ pad29 ++ " 1G01" ++ "\n" ++ "\n") ++ "3&12345678 3&54321000   1\n") c2W :=
  claim9_theorem hdrG2 (descLine1 ++ "\n") (line1 ++ "\n") Compressor.new c1W c2W
    ("&" ++ pad29 ++ " 1G01" ++ "\n" ++ "\n") "3&12345678 3&54321000   1\n"
    (by decide) (by decide) (by decide)

/-! ## Claim C10 -/

/-- Claim C10: for every `ObservationData` header whose observable-codes
table is present, `compress` on the empty string returns `Ok("")` and
returns the compressor state completely unchanged (every field). -/
theorem claim10_theorem (h : Header) (ob : ObsHeader) (c : Compressor)
    (hk : h.rinex_type = RinexType.ObservationData) (hobs : h.obs = some ob) :
    compress h "" c = CRes.ok "" c := by
  unfold compress
  rw [if_neg (by simp [hk]), hobs]
  rfl

/-- Claim C10, witness. -/
theorem claim10_witness :
    hdrG2.rinex_type = RinexType.ObservationData
    ∧ hdrG2.obs = some { codes := gCodes2 }
    ∧ compress hdrG2 "" Compressor.new = CRes.ok "" Compressor.new :=
  ⟨rfl, rfl, claim10_theorem hdrG2 { codes := gCodes2 } Compressor.new rfl rfl⟩

end Rinex
